import Mathlib

/-!
Shallow embedding of farcaster-core's Bitcoin transaction module
(chains/src/bitcoin/transaction/mod.rs): the typed transaction wrapper
over a partially-signed transaction container, output linkage, input
references, the BIP-143 sighash engine and low-S signing.

External library types (rust-bitcoin data types, the sha256d digest and the
libsecp256k1 signing context) are modelled from the spec where their code is
not part of this repository; every function of the repository itself is
translated directly from the source.
-/

/-- A Bitcoin script, modelled as its raw byte content. -/
abbrev Script := List UInt8

/-- A transaction id: modelled as the raw bytes of a 32-byte double-SHA256
digest of the serialized transaction. -/
abbrev Txid := List UInt8

/-- A reference to an output of a previous transaction. -/
structure OutPoint where
  txid : Txid
  vout : Nat
deriving Repr, DecidableEq, Inhabited

/-- OutPoint constructor, mirroring rust-bitcoin OutPoint new. -/
def OutPoint.new (txid : Txid) (vout : Nat) : OutPoint :=
  { txid := txid, vout := vout }

/-- Modelled from the spec: rust-bitcoin's null out-point marking a coinbase
input, the all-zero txid with output index u32 MAX. -/
def OutPoint.is_null (o : OutPoint) : Bool :=
  o.txid == List.replicate 32 0 && o.vout == 4294967295

/-- A transaction input. -/
structure TxIn where
  previous_output : OutPoint
  script_sig : Script
  sequence : Nat
  witness : List (List UInt8)
deriving Repr, DecidableEq, Inhabited

/-- A transaction output: a value in satoshi and a locking script. -/
structure TxOut where
  value : Nat
  script_pubkey : Script
deriving Repr, DecidableEq, Inhabited

/-- An unsigned Bitcoin transaction skeleton. -/
structure Transaction where
  version : Int
  lock_time : Nat
  input : List TxIn
  output : List TxOut
deriving Repr, DecidableEq, Inhabited

/-- Modelled from the spec: rust-bitcoin's coinbase test, true exactly when
the transaction has a single input whose previous out-point is null. -/
def Transaction.is_coin_base (t : Transaction) : Bool :=
  t.input.length == 1 && OutPoint.is_null (t.input.headI).previous_output

/-- Little-endian 4-byte encoding of a natural number (low 32 bits). -/
def encodeU32 (n : Nat) : List UInt8 :=
  [UInt8.ofNat n, UInt8.ofNat (n / 256), UInt8.ofNat (n / 65536),
   UInt8.ofNat (n / 16777216)]

/-- Little-endian 8-byte encoding of a natural number (low 64 bits). -/
def encodeU64 (n : Nat) : List UInt8 :=
  encodeU32 n ++ encodeU32 (n / 4294967296)

/-- Length-prefixed byte-string encoding. -/
def encodeBytes (l : List UInt8) : List UInt8 :=
  encodeU64 l.length ++ l

/-- Encoding of an out-point. -/
def encodeOutPoint (o : OutPoint) : List UInt8 :=
  encodeBytes o.txid ++ encodeU32 o.vout

/-- Encoding of a transaction input. -/
def encodeTxIn (i : TxIn) : List UInt8 :=
  encodeOutPoint i.previous_output ++ encodeBytes i.script_sig ++
    encodeU32 i.sequence ++ encodeU64 i.witness.length ++
    i.witness.foldr (fun w acc => encodeBytes w ++ acc) []

/-- Encoding of a transaction output. -/
def encodeTxOut (o : TxOut) : List UInt8 :=
  encodeU64 o.value ++ encodeBytes o.script_pubkey

/-- Length-prefixed encoding of a list of encodable items. -/
def encodeList (f : α → List UInt8) (l : List α) : List UInt8 :=
  encodeU64 l.length ++ l.foldr (fun a acc => f a ++ acc) []

/-- Serialization of a transaction skeleton. -/
def encodeTx (t : Transaction) : List UInt8 :=
  encodeU32 (Int.toNat (t.version % 4294967296)) ++ encodeU32 t.lock_time ++
    encodeList encodeTxIn t.input ++ encodeList encodeTxOut t.output

/-- One mixing step folding a byte into a 32-byte digest state. -/
def mixInto (st : List UInt8) (i : Nat) (b : UInt8) : List UInt8 :=
  st.set (i % 32) (st.getD (i % 32) 0 * 31 + b + UInt8.ofNat i)

/-- Folds a byte stream into a digest state. -/
def to32aux (st : List UInt8) : List UInt8 → Nat → List UInt8
  | [], _ => st
  | b :: rest, i => to32aux (mixInto st i b) rest (i + 1)

/-- Compresses an arbitrary byte stream into exactly 32 bytes. -/
def to32 (l : List UInt8) : List UInt8 :=
  to32aux (List.replicate 32 0) l 0

theorem to32aux_length (l : List UInt8) :
    ∀ (st : List UInt8) (i : Nat), (to32aux st l i).length = st.length := by
  induction l with
  | nil => intro st i; rfl
  | cons b rest ih =>
      intro st i
      show (to32aux (mixInto st i b) rest (i + 1)).length = st.length
      rw [ih]
      simp [mixInto]

theorem to32_length (l : List UInt8) : (to32 l).length = 32 := by
  show (to32aux (List.replicate 32 0) l 0).length = 32
  rw [to32aux_length]
  simp

/-- A 32-byte hash digest, as produced by rust-bitcoin's sha256d Hash type. -/
abbrev Hash := { l : List UInt8 // l.length = 32 }

/-- Modelled from the spec: the double-SHA256 digest used by the ledger,
modelled as a deterministic 32-byte compression of the input bytes. -/
def sha256d (l : List UInt8) : Hash :=
  ⟨to32 l, to32_length l⟩

/-- Modelled from the spec: rust-bitcoin's txid, the digest of the serialized
unsigned transaction; a deterministic pure function of the skeleton. -/
def Transaction.txid (t : Transaction) : Txid :=
  (sha256d (encodeTx t)).val

/-- The sighash type flag, as in rust-bitcoin's SigHashType. -/
inductive SigHashType
  | All
  | None
  | Single
  | AllPlusAnyoneCanPay
  | NonePlusAnyoneCanPay
  | SinglePlusAnyoneCanPay
deriving Repr, DecidableEq, Inhabited

/-- The u32 value of a sighash type flag. -/
def SigHashType.as_u32 : SigHashType → Nat
  | .All => 1
  | .None => 2
  | .Single => 3
  | .AllPlusAnyoneCanPay => 129
  | .NonePlusAnyoneCanPay => 130
  | .SinglePlusAnyoneCanPay => 131

namespace secp256k1

/-- Error kinds of the external secp256k1 library. -/
inductive Error
  | IncorrectSignature
  | InvalidMessage
  | InvalidPublicKey
  | InvalidSignature
  | InvalidSecretKey
deriving Repr, DecidableEq, Inhabited

/-- The order of the secp256k1 curve group. -/
def curveOrder : Nat :=
  115792089237316195423570985008687907852837564279074904382605163141518161494337

/-- Half of the curve order, the threshold for the low-S rule. -/
def halfOrder : Nat := curveOrder / 2

/-- A 32-byte message accepted by the signing operation. -/
abbrev Message := { l : List UInt8 // l.length = 32 }

/-- Constructor of a signing message from raw bytes: fails with
InvalidMessage exactly when the slice is not 32 bytes long. -/
def Message.from_slice (l : List UInt8) : Except Error Message :=
  if h : l.length = 32 then Except.ok ⟨l, h⟩ else Except.error Error.InvalidMessage

/-- A 32-byte secret signing key, treated as an abstract value. -/
abbrev SecretKey := List UInt8

/-- An ECDSA signature, a pair of scalars modulo the curve order. -/
structure Signature where
  r : Nat
  s : Nat
deriving Repr, DecidableEq, Inhabited

/-- Modelled from the spec: libsecp256k1's signature normalization. When the
s scalar is in the high half of the scalar range it is replaced by its
negation modulo the curve order, yielding the canonical low-S form. -/
def Signature.normalize_s (sig : Signature) : Signature :=
  if halfOrder < sig.s then { sig with s := curveOrder - sig.s } else sig

/-- Modelled from the spec: the external signing context. The ECDSA signing
operation itself is a field, so every statement proved about code using the
context holds for every possible signing implementation. -/
structure Secp256k1 where
  sign : Message → SecretKey → Signature

end secp256k1

/-- Modelled from the spec: abstract payload of an external psbt error. -/
structure PsbtError where
  code : Nat
deriving Repr, DecidableEq

/-- Modelled from the spec: abstract payload of an external address error. -/
structure AddressError where
  code : Nat
deriving Repr, DecidableEq

/-- Modelled from the spec: abstract payload of an external fee-strategy
error. -/
structure FeeStrategyError where
  code : Nat
deriving Repr, DecidableEq

/-- Modelled from the spec: abstract payload of an external script error. -/
structure ScriptError where
  code : Nat
deriving Repr, DecidableEq

/-- The error enumeration of the Bitcoin transaction module, one variant per
source variant, keeping the source spelling of MultiUTXOUnsuported. -/
inductive Error
  | MultiUTXOUnsuported
  | MissingWitnessScript
  | MissingWitnessUTXO
  | MissingSignature
  | MissingSigHashType
  | TransactionNotSeen
  | PublicKeyNotFound
  | PSBT (e : PsbtError)
  | Address (e : AddressError)
  | Fee (e : FeeStrategyError)
  | Secp256k1 (e : secp256k1.Error)
  | BitcoinScript (e : ScriptError)
deriving Repr, DecidableEq

/-- The linkage record returned by get_consumable_output. -/
structure MetadataOutput where
  out_point : OutPoint
  tx_out : TxOut
  script_pubkey : Option Script
deriving Repr, DecidableEq

/-- Per-output metadata of the partially-signed container; only the fields
this module reads are modelled. -/
structure PsbtOutput where
  redeem_script : Option Script
  witness_script : Option Script
deriving Repr, DecidableEq, Inhabited

/-- The global section of the partially-signed container. -/
structure PsbtGlobal where
  unsigned_tx : Transaction
deriving Repr, DecidableEq, Inhabited

/-- The partially-signed transaction container. The container format
guarantees one per-output metadata entry per skeleton output; that
consistency is carried as an invariant field. -/
structure PartiallySignedTransaction where
  global : PsbtGlobal
  outputs : List PsbtOutput
  outputs_len : outputs.length = global.unsigned_tx.output.length

/-- The typed transaction wrapper: a partially-signed container tagged by a
phantom sub-transaction kind. -/
structure Tx (T : Type) where
  psbt : PartiallySignedTransaction

/-- Transaction trait: a snapshot of the partially-signed container, always
available; a pure read that leaves the wrapper untouched. -/
def Tx.to_partial {T : Type} (tx : Tx T) : Option PartiallySignedTransaction :=
  some tx.psbt

/-- The Ok payload built by get_consumable_output: out-point at index 0 of
the unsigned transaction's txid, a copy of the first skeleton output, and
the witness script recorded against output 0 of the container. -/
def Tx.consumable_output {T : Type} (tx : Tx T) : MetadataOutput :=
  { out_point := OutPoint.new tx.psbt.global.unsigned_tx.txid 0
    tx_out := tx.psbt.global.unsigned_tx.output.headI
    script_pubkey := (tx.psbt.outputs.headI).witness_script }

/-- Linkable trait implementation, translated from the source: a match on
the skeleton's output count performs the shape check with early error
returns, then the linkage record is produced. -/
def Tx.get_consumable_output {T : Type} (tx : Tx T) : Except Error MetadataOutput :=
  match tx.psbt.global.unsigned_tx.output.length with
  | 1 => Except.ok ( Tx.consumable_output tx)
  | 2 =>
      if ! tx.psbt.global.unsigned_tx.is_coin_base then
        Except.error Error.MultiUTXOUnsuported
      else
        Except.ok ( Tx.consumable_output tx)
  | _ => Except.error Error.MultiUTXOUnsuported

/-- A borrowed reference to a transaction input. -/
structure TxInRef where
  transaction : Transaction
  index : Nat
deriving Repr, DecidableEq, Inhabited

/-- Constructs a reference to the input with the given index of the given
transaction; the source asserts the index is in range, which is modelled as
returning none on assertion failure. -/
def TxInRef.new (transaction : Transaction) (index : Nat) : Option TxInRef :=
  if transaction.input.length > index then
    some { transaction := transaction, index := index }
  else
    none

/-- Access to the referenced input; the source indexes the input list, which
panics out of range, modelled as an Option. -/
def TxInRef.input (r : TxInRef) : Option TxIn :=
  r.transaction.input.get? r.index

/-- Modelled from the spec: the BIP-143 committed data, binding the full
transaction context, the input index, the exact locking script, the spent
value and the sighash type flag. -/
def bip143_encode (t : Transaction) (index : Nat) (script : Script)
    (value : Nat) (sighash_type : SigHashType) : List UInt8 :=
  encodeTx t ++ encodeU64 index ++ encodeBytes script ++ encodeU64 value ++
    encodeU32 (SigHashType.as_u32 sighash_type)

/-- Computes the BIP-143 compliant sighash for the given input: the digest
of the committed data of the referenced transaction, index, script, value
and sighash type, as produced through rust-bitcoin's SigHashCache. -/
def signature_hash (txin : TxInRef) (script : Script) (value : Nat)
    (sighash_type : SigHashType) : Hash :=
  sha256d (bip143_encode txin.transaction txin.index script value sighash_type)

/-- Computes the BIP-143 compliant signature for the given input: computes
the sighash, maps it to a signing message, signs it with the supplied key
and normalizes the signature to low-S form. -/
def sign_input (context : secp256k1.Secp256k1) (txin : TxInRef)
    (script : Script) (value : Nat) (sighash_type : SigHashType)
    (secret_key : secp256k1.SecretKey) :
    Except secp256k1.Error secp256k1.Signature := do
  let sighash := signature_hash txin script value sighash_type
  let msg ← secp256k1.Message.from_slice sighash.val
  let sig := context.sign msg secret_key
  Except.ok (secp256k1.Signature.normalize_s sig)

/-- Conversion of a 32-byte hash into a signing message without the runtime
length check; used only to state what sign_input signs. -/
def secp256k1.Message.of_hash (h : Hash) : secp256k1.Message :=
  ⟨h.val, h.property⟩

theorem normalize_s_low (sig : secp256k1.Signature) :
    (secp256k1.Signature.normalize_s sig).s ≤ secp256k1.halfOrder := by
  have hco : secp256k1.curveOrder = 2 * secp256k1.halfOrder + 1 := by decide
  unfold secp256k1.Signature.normalize_s
  by_cases h : secp256k1.halfOrder < sig.s
  · simp only [h, if_true]
    omega
  · simp only [h, if_false]
    omega

theorem sign_input_eq (context : secp256k1.Secp256k1) (txin : TxInRef)
    (script : Script) (value : Nat) (sighash_type : SigHashType)
    (secret_key : secp256k1.SecretKey) :
    sign_input context txin script value sighash_type secret_key =
      Except.ok (secp256k1.Signature.normalize_s
        (context.sign
          ( secp256k1.Message.of_hash (signature_hash txin script value sighash_type))
          secret_key)) := by
  have hlen := (signature_hash txin script value sighash_type).property
  simp [sign_input, secp256k1.Message.from_slice, hlen,
    secp256k1.Message.of_hash, bind, Except.bind]

/-- A one-byte example locking script. -/
def exScript : Script := [81]

/-- An example output of value 50000 locked to the example script. -/
def exOut1 : TxOut := { value := 50000, script_pubkey := exScript }

/-- A second example output. -/
def exOut2 : TxOut := { value := 1000, script_pubkey := [82] }

/-- A third example output. -/
def exOut3 : TxOut := { value := 2000, script_pubkey := [83] }

/-- An ordinary (non-coinbase) example input. -/
def exIn : TxIn :=
  { previous_output := { txid := List.replicate 32 1, vout := 0 }
    script_sig := []
    sequence := 4294967295
    witness := [] }

/-- A coinbase input: null previous out-point. -/
def exCoinbaseIn : TxIn :=
  { previous_output := { txid := List.replicate 32 0, vout := 4294967295 }
    script_sig := []
    sequence := 4294967295
    witness := [] }

/-- A one-input, one-output example skeleton. -/
def exTransaction1 : Transaction :=
  { version := 2, lock_time := 0, input := [ exIn], output := [ exOut1] }

/-- A typed transaction over the one-output skeleton, with a witness script
recorded against output 0. -/
def exTx1 : Tx Unit :=
  { psbt :=
      { global := { unsigned_tx := exTransaction1 }
        outputs := [{ redeem_script := none, witness_script := some exScript }]
        outputs_len := rfl } }

/-- A typed transaction over the one-output skeleton with no witness script
recorded against output 0. -/
def exTxNoWs : Tx Unit :=
  { psbt :=
      { global := { unsigned_tx := exTransaction1 }
        outputs := [{ redeem_script := none, witness_script := none }]
        outputs_len := rfl } }

/-- A coinbase skeleton with three outputs. -/
def exTransactionCb3 : Transaction :=
  { version := 2, lock_time := 0, input := [ exCoinbaseIn]
    output := [ exOut1, exOut2, exOut3] }

/-- A typed transaction over the three-output coinbase skeleton. -/
def exTxCb3 : Tx Unit :=
  { psbt :=
      { global := { unsigned_tx := exTransactionCb3 }
        outputs :=
          [{ redeem_script := none, witness_script := none },
           { redeem_script := none, witness_script := none },
           { redeem_script := none, witness_script := none }]
        outputs_len := rfl } }

/-- A skeleton with one input and zero outputs. -/
def exTransaction0 : Transaction :=
  { version := 2, lock_time := 0, input := [ exIn], output := [] }

/-- A typed transaction over the zero-output skeleton. -/
def exTx0 : Tx Unit :=
  { psbt :=
      { global := { unsigned_tx := exTransaction0 }
        outputs := []
        outputs_len := rfl } }

/-- An example signing context whose raw signature has a high s scalar. -/
def exCtx : secp256k1.Secp256k1 :=
  { sign := fun _ _ => { r := 7, s := secp256k1.curveOrder - 5 } }

/-- An example input reference into the one-output skeleton. -/
def exTxInRef : TxInRef := { transaction := exTransaction1, index := 0 }

/-- An example 32-byte secret key. -/
def exKey : secp256k1.SecretKey := List.replicate 32 1

/-- C9: to_partial always returns Some snapshot, that snapshot is exactly
the internal partially-signed container, and as a pure read it leaves the
typed transaction unchanged. -/
theorem to_partial_always_some {T : Type} (tx : Tx T) :
    Tx.to_partial tx = some tx.psbt := rfl

/-- C3: signature_hash is deterministic and side-effect-free: it is a pure
function, so two invocations with identical transaction, index, script,
value and sighash type produce the identical digest. -/
theorem signature_hash_deterministic (t1 t2 : TxInRef) (s1 s2 : Script)
    (v1 v2 : Nat) (y1 y2 : SigHashType) (h1 : t1 = t2) (h2 : s1 = s2)
    (h3 : v1 = v2) (h4 : y1 = y2) :
    signature_hash t1 s1 v1 y1 = signature_hash t2 s2 v2 y2 := by
  subst h1
  subst h2
  subst h3
  subst h4
  rfl

theorem signature_hash_deterministic_witness :
    signature_hash exTxInRef exScript 50000 SigHashType.All =
      signature_hash exTxInRef exScript 50000 SigHashType.All :=
  signature_hash_deterministic exTxInRef exTxInRef exScript exScript
    50000 50000 SigHashType.All SigHashType.All rfl rfl rfl rfl

/-- C6: the digest that sign_input signs is exactly the signature_hash of
its input reference, script, spent value and sighash type: the returned
signature is the low-S normalization of the context's signature over that
digest with the supplied key. -/
theorem sign_input_signs_signature_hash (context : secp256k1.Secp256k1)
    (txin : TxInRef) (script : Script) (value : Nat)
    (sighash_type : SigHashType) (secret_key : secp256k1.SecretKey) :
    sign_input context txin script value sighash_type secret_key =
      Except.ok (secp256k1.Signature.normalize_s
        (context.sign
          ( secp256k1.Message.of_hash (signature_hash txin script value sighash_type))
          secret_key)) :=
  sign_input_eq context txin script value sighash_type secret_key

/-- C2: every signature returned by sign_input is in low-S normalized form:
its s scalar never exceeds half the curve order, whatever raw signature the
signing context produced. -/
theorem sign_input_low_s (context : secp256k1.Secp256k1) (txin : TxInRef)
    (script : Script) (value : Nat) (sighash_type : SigHashType)
    (secret_key : secp256k1.SecretKey) (sig : secp256k1.Signature)
    (h : sign_input context txin script value sighash_type secret_key =
      Except.ok sig) :
    sig.s ≤ secp256k1.halfOrder := by
  rw [sign_input_eq] at h
  have h2 := h
  simp only [Except.ok.injEq] at h2
  rw [← h2]
  exact normalize_s_low _

set_option maxRecDepth 100000 in
theorem sign_input_low_s_witness :
    sign_input exCtx exTxInRef exScript 50000 SigHashType.All exKey =
        Except.ok { r := 7, s := 5 } ∧
      ({ r := 7, s := 5 } : secp256k1.Signature).s ≤ secp256k1.halfOrder :=
  have h : sign_input exCtx exTxInRef exScript 50000 SigHashType.All exKey =
      Except.ok { r := 7, s := 5 } := rfl
  ⟨h, sign_input_low_s exCtx exTxInRef exScript 50000 SigHashType.All exKey
    { r := 7, s := 5 } h⟩

/-- C8: the cryptographic-error branch of sign_input is unreachable: the
sighash digest is a 32-byte hash by construction, so the message conversion
succeeds and sign_input returns Ok for every valid input reference. -/
theorem sign_input_never_fails (context : secp256k1.Secp256k1)
    (txin : TxInRef) (script : Script) (value : Nat)
    (sighash_type : SigHashType) (secret_key : secp256k1.SecretKey)
    (h : txin.index < txin.transaction.input.length) :
    ∃ sig, sign_input context txin script value sighash_type secret_key =
      Except.ok sig :=
  ⟨secp256k1.Signature.normalize_s
      (context.sign
        ( secp256k1.Message.of_hash (signature_hash txin script value sighash_type))
        secret_key),
    sign_input_eq context txin script value sighash_type secret_key⟩

theorem sign_input_never_fails_witness :
    exTxInRef.index < exTxInRef.transaction.input.length ∧
      ∃ sig, sign_input exCtx exTxInRef exScript 50000 SigHashType.All exKey =
        Except.ok sig :=
  ⟨by decide,
    sign_input_never_fails exCtx exTxInRef exScript 50000 SigHashType.All
      exKey (by decide)⟩

/-- C1 (amended): get_consumable_output fails with MultiUTXOUnsuported
exactly when the skeleton's output count is not one and is not two on a
coinbase: zero outputs fail, two outputs fail unless the transaction is a
coinbase, and three or more outputs fail even for a coinbase. -/
theorem get_consumable_output_err_iff {T : Type} (tx : Tx T) :
    Tx.get_consumable_output tx = Except.error Error.MultiUTXOUnsuported ↔
      ¬ (tx.psbt.global.unsigned_tx.output.length = 1 ∨
        (tx.psbt.global.unsigned_tx.output.length = 2 ∧
          tx.psbt.global.unsigned_tx.is_coin_base = true)) := by
  unfold Tx.get_consumable_output
  rcases hl : tx.psbt.global.unsigned_tx.output.length with _ | _ | _ | n
  · simp [hl]
  · simp [hl]
  · by_cases hcb : tx.psbt.global.unsigned_tx.is_coin_base = true
    · simp [hl, hcb]
    · simp [hl, hcb]
  · simp [hl]

/-- C1 (counterexample): a coinbase transaction with three outputs, on which
get_consumable_output fails although the claim promises success for every
coinbase with more than one output. -/
theorem get_consumable_output_coinbase_three_fails :
    exTxCb3.psbt.global.unsigned_tx.is_coin_base = true ∧
      exTxCb3.psbt.global.unsigned_tx.output.length = 3 ∧
      Tx.get_consumable_output exTxCb3 =
        Except.error Error.MultiUTXOUnsuported := by
  refine ⟨by decide, by decide, ?_⟩
  rfl

/-- C4: whenever get_consumable_output succeeds, the returned record is the
out-point made of the unsigned transaction's txid and output index 0, a copy
of the skeleton's first output, and the witness script recorded against
output 0 of the partially-signed container. -/
theorem get_consumable_output_ok_shape {T : Type} (tx : Tx T)
    (m : MetadataOutput)
    (h : Tx.get_consumable_output tx = Except.ok m) :
    m = { out_point := OutPoint.new tx.psbt.global.unsigned_tx.txid 0
          tx_out := tx.psbt.global.unsigned_tx.output.headI
          script_pubkey := (tx.psbt.outputs.headI).witness_script } := by
  unfold Tx.get_consumable_output at h
  split at h
  · cases h
    rfl
  · split at h
    · cases h
    · cases h
      rfl
  · cases h

set_option maxRecDepth 100000 in
theorem get_consumable_output_ok_shape_witness :
    Tx.get_consumable_output exTx1 = Except.ok ( Tx.consumable_output exTx1) ∧
      Tx.consumable_output exTx1 =
        { out_point := OutPoint.new exTx1.psbt.global.unsigned_tx.txid 0
          tx_out := exTx1.psbt.global.unsigned_tx.output.headI
          script_pubkey := (exTx1.psbt.outputs.headI).witness_script } :=
  ⟨rfl, get_consumable_output_ok_shape exTx1 ( Tx.consumable_output exTx1) rfl⟩

/-- C5 (amended): get_consumable_output never fabricates a script: the
returned script_pubkey is exactly the witness script recorded against output
0 of the container, and when none is recorded the call still succeeds with
script_pubkey none rather than failing. -/
theorem get_consumable_output_script_exact {T : Type} (tx : Tx T)
    (m : MetadataOutput)
    (h : Tx.get_consumable_output tx = Except.ok m) :
    m.script_pubkey = (tx.psbt.outputs.headI).witness_script := by
  unfold Tx.get_consumable_output at h
  split at h
  · cases h
    rfl
  · split at h
    · cases h
    · cases h
      rfl
  · cases h

set_option maxRecDepth 100000 in
theorem get_consumable_output_script_exact_witness :
    Tx.get_consumable_output exTxNoWs =
        Except.ok ( Tx.consumable_output exTxNoWs) ∧
      ( Tx.consumable_output exTxNoWs).script_pubkey =
        (exTxNoWs.psbt.outputs.headI).witness_script :=
  ⟨rfl,
    get_consumable_output_script_exact exTxNoWs ( Tx.consumable_output exTxNoWs)
      rfl⟩

set_option maxRecDepth 100000 in
/-- C5 (counterexample): a typed transaction with a single output and no
recorded witness script, on which get_consumable_output succeeds with an
absent script instead of failing as the claim demands. -/
theorem get_consumable_output_missing_script_succeeds :
    (exTxNoWs.psbt.outputs.headI).witness_script = none ∧
      Tx.get_consumable_output exTxNoWs =
        Except.ok ( Tx.consumable_output exTxNoWs) ∧
      ( Tx.consumable_output exTxNoWs).script_pubkey = none :=
  ⟨rfl, rfl, rfl⟩

/-- C7: TxInRef construction is a fatal assertion failure exactly when the
index is not strictly below the transaction's input count; under the
precondition the construction succeeds with the given fields and the
subsequent input access is in bounds. -/
theorem txinref_new_spec (t : Transaction) (i : Nat) :
    (TxInRef.new t i = none ↔ t.input.length ≤ i) ∧
      (i < t.input.length →
        TxInRef.new t i = some { transaction := t, index := i } ∧
          (TxInRef.input { transaction := t, index := i }).isSome = true) := by
  constructor
  · unfold TxInRef.new
    by_cases h : t.input.length > i
    all_goals simp [h]
    all_goals omega
  · intro h
    constructor
    · unfold TxInRef.new
      simp [h]
    · show (t.input.get? i).isSome = true
      rw [List.get?_eq_getElem?, List.getElem?_eq_getElem h]
      rfl

theorem txinref_new_spec_witness :
    TxInRef.new exTransaction1 0 =
        some { transaction := exTransaction1, index := 0 } ∧
      (TxInRef.input { transaction := exTransaction1, index := 0 }).isSome =
        true :=
  (txinref_new_spec exTransaction1 0).2 (by decide)

/-- C10: on a typed transaction whose skeleton has zero outputs,
get_consumable_output returns the MultiUTXOUnsuported error: the count
check runs before any indexing of output 0, so the error path never touches
the empty output lists. -/
theorem get_consumable_output_zero_outputs {T : Type} (tx : Tx T)
    (h : tx.psbt.global.unsigned_tx.output = []) :
    Tx.get_consumable_output tx = Except.error Error.MultiUTXOUnsuported := by
  unfold Tx.get_consumable_output
  simp [h]

theorem get_consumable_output_zero_outputs_witness :
    exTx0.psbt.global.unsigned_tx.output = [] ∧
      Tx.get_consumable_output exTx0 =
        Except.error Error.MultiUTXOUnsuported :=
  ⟨rfl, get_consumable_output_zero_outputs exTx0 rfl⟩
